import Mathlib

/-!
Verification of `src/script.js`: a mobile navigation menu controller.

The script, on `DOMContentLoaded`, looks up a hamburger toggle element
(`.hamburger`), a menu panel (`.nav-menu`) and a set of navigation links
(`.nav-link`).  A click on the hamburger toggles the CSS class `"active"`
on both the hamburger and the menu panel; a click on any navigation link
removes `"active"` from both.

We embed the DOM fragment the handlers touch: each element carries an
ordered list of class tokens, `classList.toggle` / `classList.remove`
are modelled on those lists, and initialization is modelled with the
nullable results of `querySelector`.
-/

namespace Script

/-- A DOM element's class list: the ordered list of its class tokens. -/
abbrev ClassList := List String

/-- `classList.contains c`: whether the token `c` occurs in the list. -/
def hasClass (c : String) : ClassList → Bool
  | [] => false
  | a :: rest => a == c || hasClass c rest

/-- `classList.toggle c` (source lines 7-8): remove the token when present,
append it at the end when absent. -/
def toggleClass (c : String) (l : ClassList) : ClassList :=
  if hasClass c l then l.filter (fun x => x != c) else l ++ [c]

/-- `classList.remove c` (source lines 13-14): remove every occurrence of
the token. -/
def removeClass (c : String) (l : ClassList) : ClassList :=
  l.filter (fun x => x != c)

/-- The page state the handlers can observe and mutate: the class lists of
the hamburger toggle and of the menu panel, the class lists of every other
element of the document, and whether any handler called `preventDefault`
on the current event. -/
structure DomState where
  hamburger : ClassList
  navMenu : ClassList
  others : List ClassList
  defaultPrevented : Bool
deriving DecidableEq

/-- The hamburger click handler (source lines 6-9):
`hamburger.classList.toggle('active'); navMenu.classList.toggle('active')`. -/
def hamburgerClick (s : DomState) : DomState :=
  { s with
    hamburger := toggleClass "active" s.hamburger
    navMenu := toggleClass "active" s.navMenu }

/-- The navigation-link click handler (source lines 12-15):
`hamburger.classList.remove('active'); navMenu.classList.remove('active')`. -/
def navLinkClick (s : DomState) : DomState :=
  { s with
    hamburger := removeClass "active" s.hamburger
    navMenu := removeClass "active" s.navMenu }

/-- The events the script handles: a click on the hamburger toggle, or a
click on any navigation link (all link handlers have the same body). -/
inductive Event
  | toggleClick
  | linkClick
deriving DecidableEq

/-- One handled event, as a step on the page state. -/
def step : Event → DomState → DomState
  | Event.toggleClick, s => hamburgerClick s
  | Event.linkClick, s => navLinkClick s

/-- The pair of `"active"` markers: on the hamburger and on the menu panel. -/
def markers (s : DomState) : Bool × Bool :=
  (hasClass "active" s.hamburger, hasClass "active" s.navMenu)

/-- The states reachable from `init` by handled events. -/
inductive Reachable (init : DomState) : DomState → Prop
  | refl : Reachable init init
  | tail {s : DomState} (e : Event) : Reachable init s → Reachable init (step e s)

/-- `n` consecutive hamburger clicks. -/
def toggleIter : Nat → DomState → DomState
  | 0, s => s
  | n + 1, s => toggleIter n (hamburgerClick s)

/-- The only failure the script can raise: a member access on `null`. -/
inductive JsError
  | nullDereference
deriving DecidableEq

/-- A listener registered during initialization. -/
inductive Listener
  | toggle
  | link
deriving DecidableEq

/-- The document as the `DOMContentLoaded` callback queries it:
`querySelector('.hamburger')` and `querySelector('.nav-menu')` may return
null (`none`); `querySelectorAll('.nav-link')` returns a (possibly empty)
list of elements. -/
structure Doc where
  hamburger : Option ClassList
  navMenu : Option ClassList
  navLinks : List ClassList
deriving DecidableEq

/-- The `DOMContentLoaded` callback (source lines 1-16).  It dereferences
`hamburger` at line 6 (`hamburger.addEventListener`), so a null hamburger
raises there; `navMenu` is only mentioned inside the handler closures and
is never dereferenced during initialization.  On success it has registered
the hamburger listener and one link listener per navigation link. -/
def initScript (d : Doc) : Except JsError (List Listener) :=
  match d.hamburger with
  | none => Except.error JsError.nullDereference
  | some _ => Except.ok (Listener.toggle :: d.navLinks.map (fun _ => Listener.link))

/-- Running the hamburger click handler when the menu panel lookup may have
been null: line 7 (`hamburger.classList.toggle('active')`) executes first,
then line 8 dereferences `navMenu` and raises when it is null.  Returns the
resulting `(hamburger, navMenu)` class lists together with the error, if
any. -/
def hamburgerClickRun (h : ClassList) (m : Option ClassList) :
    (ClassList × Option ClassList) × Option JsError :=
  let h1 := toggleClass "active" h
  match m with
  | none => ((h1, none), some JsError.nullDereference)
  | some ml => ((h1, some (toggleClass "active" ml)), none)

theorem hasClass_append (c : String) (l₁ l₂ : ClassList) :
    hasClass c (l₁ ++ l₂) = (hasClass c l₁ || hasClass c l₂) := by
  induction l₁ with
  | nil => simp [hasClass]
  | cons a l ih => simp [hasClass, ih, Bool.or_assoc]

theorem hasClass_filter_self (c : String) (l : ClassList) :
    hasClass c (l.filter (fun x => x != c)) = false := by
  induction l with
  | nil => simp [hasClass]
  | cons a l ih =>
    by_cases h : a = c
    · simpa [List.filter_cons, h] using ih
    · simp [List.filter_cons, h, hasClass, ih, bne_iff_ne, beq_iff_eq]

theorem hasClass_filter_other {c x : String} (hx : x ≠ c) (l : ClassList) :
    hasClass x (l.filter (fun a => a != c)) = hasClass x l := by
  induction l with
  | nil => simp
  | cons a l ih =>
    by_cases h : a = c
    · subst h
      have hax : (a == x) = false := beq_eq_false_iff_ne.mpr (Ne.symm hx)
      simp [List.filter_cons, hasClass, ih, hax]
    · simp [List.filter_cons, h, hasClass, ih, bne_iff_ne]

theorem hasClass_toggleClass (c : String) (l : ClassList) :
    hasClass c (toggleClass c l) = !(hasClass c l) := by
  unfold toggleClass
  by_cases h : hasClass c l = true
  · simp [h, hasClass_filter_self]
  · simp only [Bool.not_eq_true] at h
    simp [h, hasClass_append, hasClass]

theorem hasClass_toggleClass_other {c x : String} (hx : x ≠ c) (l : ClassList) :
    hasClass x (toggleClass c l) = hasClass x l := by
  unfold toggleClass
  by_cases h : hasClass c l = true
  · simp [h, hasClass_filter_other hx]
  · simp only [Bool.not_eq_true] at h
    have hcx : (c == x) = false := beq_eq_false_iff_ne.mpr (Ne.symm hx)
    simp [h, hasClass_append, hasClass, hcx]

theorem hasClass_removeClass (c : String) (l : ClassList) :
    hasClass c (removeClass c l) = false :=
  hasClass_filter_self c l

theorem hasClass_removeClass_other {c x : String} (hx : x ≠ c) (l : ClassList) :
    hasClass x (removeClass c l) = hasClass x l :=
  hasClass_filter_other hx l

theorem removeClass_of_not_hasClass {c : String} {l : ClassList}
    (h : hasClass c l = false) : removeClass c l = l := by
  induction l with
  | nil => rfl
  | cons a l ih =>
    simp only [hasClass, Bool.or_eq_false_iff, beq_eq_false_iff_ne] at h
    have hne : (a != c) = true := bne_iff_ne.mpr h.1
    have ihl : List.filter (fun x => x != c) l = l := ih h.2
    simp [removeClass, List.filter_cons, hne, ihl]

theorem removeClass_idem (c : String) (l : ClassList) :
    removeClass c (removeClass c l) = removeClass c l :=
  removeClass_of_not_hasClass (hasClass_removeClass c l)

theorem markers_hamburgerClick (s : DomState) :
    markers (hamburgerClick s) = (!(markers s).1, !(markers s).2) := by
  simp [markers, hamburgerClick, hasClass_toggleClass]

theorem markers_toggleIter (n : Nat) (s : DomState) :
    markers (toggleIter n s)
      = if n % 2 = 1 then (!(markers s).1, !(markers s).2) else markers s := by
  induction n generalizing s with
  | zero => simp [toggleIter]
  | succ n ih =>
    have hstep : toggleIter (n + 1) s = toggleIter n (hamburgerClick s) := rfl
    rw [hstep, ih, markers_hamburgerClick]
    rcases Nat.mod_two_eq_zero_or_one n with h | h
    · have h1 : (n + 1) % 2 = 1 := by omega
      simp [h, h1]
    · have h0 : (n + 1) % 2 = 0 := by omega
      simp [h, h0]

/-- C1: starting from an initial state in which neither the hamburger
toggle nor the menu panel carries the `"active"` marker, every state
reachable by handled events (hamburger clicks or link clicks) has the two
markers equal: the equality is an invariant of the event step relation. -/
theorem active_markers_equal_invariant (init s : DomState)
    (h1 : hasClass "active" init.hamburger = false)
    (h2 : hasClass "active" init.navMenu = false)
    (hr : Reachable init s) :
    hasClass "active" s.hamburger = hasClass "active" s.navMenu := by
  induction hr with
  | refl => rw [h1, h2]
  | tail e _ ih =>
    cases e with
    | toggleClick => simp [step, hamburgerClick, hasClass_toggleClass, ih]
    | linkClick => simp [step, navLinkClick, hasClass_removeClass]

/-- Witness for C1 at a concrete initial state and a concrete reachable
state (one hamburger click from the empty state). -/
theorem active_markers_equal_invariant_witness :
    hasClass "active" (DomState.mk [] [] [] false).hamburger = false
  ∧ hasClass "active" (DomState.mk [] [] [] false).navMenu = false
  ∧ hasClass "active" (step Event.toggleClick (DomState.mk [] [] [] false)).hamburger
      = hasClass "active" (step Event.toggleClick (DomState.mk [] [] [] false)).navMenu :=
  ⟨by decide, by decide,
   active_markers_equal_invariant (DomState.mk [] [] [] false) _ (by decide) (by decide)
     (Reachable.tail Event.toggleClick Reachable.refl)⟩

/-- C2: for every pre-event state, a hamburger click sets each of the two
`"active"` markers to the boolean NOT of that element's own pre-event
marker (flipped independently), and has no other effect: every other
class on the two elements, every other element, and the
`defaultPrevented` flag are unchanged. -/
theorem toggle_click_flips_each_marker (s : DomState) :
    hasClass "active" (hamburgerClick s).hamburger = !(hasClass "active" s.hamburger)
  ∧ hasClass "active" (hamburgerClick s).navMenu = !(hasClass "active" s.navMenu)
  ∧ (hamburgerClick s).others = s.others
  ∧ (hamburgerClick s).defaultPrevented = s.defaultPrevented
  ∧ ∀ c : String, c ≠ "active" →
      hasClass c (hamburgerClick s).hamburger = hasClass c s.hamburger
    ∧ hasClass c (hamburgerClick s).navMenu = hasClass c s.navMenu := by
  refine ⟨?_, ?_, rfl, rfl, ?_⟩
  · simp [hamburgerClick, hasClass_toggleClass]
  · simp [hamburgerClick, hasClass_toggleClass]
  · intro c hc
    exact ⟨hasClass_toggleClass_other hc s.hamburger,
           hasClass_toggleClass_other hc s.navMenu⟩

/-- Witness for C2 at a concrete state, discharging the nested hypothesis
with the concrete class `"open"`. -/
theorem toggle_click_flips_each_marker_witness :
    ("open" : String) ≠ "active"
  ∧ hasClass "open" (hamburgerClick (DomState.mk ["open"] [] [] false)).hamburger
      = hasClass "open" (DomState.mk ["open"] [] [] false).hamburger :=
  ⟨by decide,
   ((toggle_click_flips_each_marker (DomState.mk ["open"] [] [] false)).2.2.2.2
      "open" (by decide)).1⟩

/-- C3: a click on any navigation link unconditionally removes the
`"active"` marker from both elements, for every pre-event state: the
post-event state always has both markers absent (Closed), and nothing
else of the page is touched. -/
theorem link_click_forces_closed (s : DomState) :
    hasClass "active" (navLinkClick s).hamburger = false
  ∧ hasClass "active" (navLinkClick s).navMenu = false
  ∧ (navLinkClick s).others = s.others
  ∧ (navLinkClick s).defaultPrevented = s.defaultPrevented :=
  ⟨hasClass_removeClass "active" s.hamburger,
   hasClass_removeClass "active" s.navMenu, rfl, rfl⟩

/-- C4: from a state with both markers absent, `n` hamburger clicks end
with both markers present when `n` is odd and both absent when `n` is
even; moreover two consecutive hamburger clicks restore the marker pair
of any state (the toggle is an involution on the markers). -/
theorem toggle_iteration_parity (n : Nat) (s : DomState)
    (h : markers s = (false, false)) :
    markers (toggleIter n s) = (if n % 2 = 1 then (true, true) else (false, false))
  ∧ ∀ t : DomState, markers (hamburgerClick (hamburgerClick t)) = markers t := by
  constructor
  · rw [markers_toggleIter, h]
    rcases Nat.mod_two_eq_zero_or_one n with h2 | h2 <;> simp [h2]
  · intro t
    rw [markers_hamburgerClick, markers_hamburgerClick]
    simp

/-- Witness for C4: three clicks from the concrete empty state. -/
theorem toggle_iteration_parity_witness :
    markers (DomState.mk [] [] [] false) = (false, false)
  ∧ markers (toggleIter 3 (DomState.mk [] [] [] false))
      = (if 3 % 2 = 1 then (true, true) else (false, false)) :=
  ⟨by decide, (toggle_iteration_parity 3 (DomState.mk [] [] [] false) (by decide)).1⟩

/-- C5 counterexample: with the hamburger present and the `.nav-menu`
lookup returning null, initialization completes successfully (it registers
the hamburger listener), contradicting the claim that a null menu panel
makes initialization itself fail. -/
theorem init_succeeds_with_null_navMenu :
    initScript (Doc.mk (some []) none []) = Except.ok [Listener.toggle] := rfl

/-- C5 amended: a null hamburger lookup makes initialization fail with a
null-reference error before any click is handled; a null menu panel alone
does not fail initialization — its null-reference failure only occurs when
the hamburger click handler later runs. -/
theorem init_null_hamburger_fails (m : Option ClassList) (links : List ClassList)
    (h : ClassList) :
    initScript (Doc.mk none m links) = Except.error JsError.nullDereference
  ∧ initScript (Doc.mk (some h) none links)
      = Except.ok (Listener.toggle :: links.map (fun _ => Listener.link))
  ∧ (hamburgerClickRun h none).2 = some JsError.nullDereference :=
  ⟨rfl, rfl, rfl⟩

/-- C6: a link click in a state with both markers absent leaves the whole
page state literally unchanged, and the link handler is idempotent on
every state. -/
theorem link_click_noop_when_closed (s : DomState)
    (h1 : hasClass "active" s.hamburger = false)
    (h2 : hasClass "active" s.navMenu = false) :
    navLinkClick s = s
  ∧ ∀ t : DomState, navLinkClick (navLinkClick t) = navLinkClick t := by
  constructor
  · cases s with
    | mk hb nm o dp =>
      simp only [navLinkClick]
      rw [removeClass_of_not_hasClass h1, removeClass_of_not_hasClass h2]
  · intro t
    cases t with
    | mk hb nm o dp =>
      simp only [navLinkClick]
      rw [removeClass_idem, removeClass_idem]

/-- Witness for C6 at a concrete closed state carrying an unrelated class. -/
theorem link_click_noop_when_closed_witness :
    hasClass "active" (DomState.mk ["dark"] [] [] false).hamburger = false
  ∧ hasClass "active" (DomState.mk ["dark"] [] [] false).navMenu = false
  ∧ navLinkClick (DomState.mk ["dark"] [] [] false) = DomState.mk ["dark"] [] [] false :=
  ⟨by decide, by decide,
   (link_click_noop_when_closed (DomState.mk ["dark"] [] [] false)
      (by decide) (by decide)).1⟩

/-- C7: with an empty `.nav-link` set, initialization completes without
error and registers no link listener (the link-click behavior is never
triggered), while a hamburger click still flips both markers exactly as
when links are present. -/
theorem empty_links_safe (h m : ClassList) (s : DomState) :
    initScript (Doc.mk (some h) (some m) []) = Except.ok [Listener.toggle]
  ∧ Listener.link ∉ [Listener.toggle]
  ∧ hasClass "active" (hamburgerClick s).hamburger = !(hasClass "active" s.hamburger)
  ∧ hasClass "active" (hamburgerClick s).navMenu = !(hasClass "active" s.navMenu) := by
  refine ⟨rfl, by decide, ?_, ?_⟩ <;> simp [hamburgerClick, hasClass_toggleClass]

/-- C8: neither handler has any observable effect beyond the `"active"`
marker on the two elements: every other class on them keeps its
membership, every other element of the document is unchanged, and the
`defaultPrevented` flag is untouched (no `preventDefault`). -/
theorem handlers_frame_condition (e : Event) (s : DomState) :
    (step e s).others = s.others
  ∧ (step e s).defaultPrevented = s.defaultPrevented
  ∧ ∀ c : String, c ≠ "active" →
      hasClass c (step e s).hamburger = hasClass c s.hamburger
    ∧ hasClass c (step e s).navMenu = hasClass c s.navMenu := by
  cases e with
  | toggleClick =>
    exact ⟨rfl, rfl, fun c hc =>
      ⟨hasClass_toggleClass_other hc s.hamburger,
       hasClass_toggleClass_other hc s.navMenu⟩⟩
  | linkClick =>
    exact ⟨rfl, rfl, fun c hc =>
      ⟨hasClass_removeClass_other hc s.hamburger,
       hasClass_removeClass_other hc s.navMenu⟩⟩

/-- Witness for C8 at a concrete event, state and unrelated class. -/
theorem handlers_frame_condition_witness :
    ("sticky" : String) ≠ "active"
  ∧ hasClass "sticky" (step Event.linkClick (DomState.mk ["sticky", "active"] [] [] false)).hamburger
      = hasClass "sticky" (DomState.mk ["sticky", "active"] [] [] false).hamburger :=
  ⟨by decide,
   ((handlers_frame_condition Event.linkClick
       (DomState.mk ["sticky", "active"] [] [] false)).2.2 "sticky" (by decide)).1⟩

/-- C9: the hamburger click flips the two markers independently, so it
preserves a marker mismatch: from any state whose markers differ, they
still differ after any number of hamburger clicks; a link click restores
equality by forcing both markers off.  The equality invariant therefore
holds only for states reachable from both-markers-absent markup. -/
theorem toggle_preserves_marker_mismatch (s : DomState)
    (h : hasClass "active" s.hamburger ≠ hasClass "active" s.navMenu) :
    (∀ n : Nat, hasClass "active" (toggleIter n s).hamburger
        ≠ hasClass "active" (toggleIter n s).navMenu)
  ∧ hasClass "active" (navLinkClick s).hamburger
      = hasClass "active" (navLinkClick s).navMenu := by
  constructor
  · intro n
    have hm := markers_toggleIter n s
    have hfst : (markers (toggleIter n s)).1 = hasClass "active" (toggleIter n s).hamburger := rfl
    have hsnd : (markers (toggleIter n s)).2 = hasClass "active" (toggleIter n s).navMenu := rfl
    rw [← hfst, ← hsnd, hm]
    rcases Nat.mod_two_eq_zero_or_one n with h2 | h2 <;>
      simp [h2, markers] <;> intro heq <;> exact h heq
  · simp [navLinkClick, hasClass_removeClass]

/-- Witness for C9 at a concrete mismatched state. -/
theorem toggle_preserves_marker_mismatch_witness :
    hasClass "active" (DomState.mk ["active"] [] [] false).hamburger
      ≠ hasClass "active" (DomState.mk ["active"] [] [] false).navMenu
  ∧ hasClass "active" (toggleIter 1 (DomState.mk ["active"] [] [] false)).hamburger
      ≠ hasClass "active" (toggleIter 1 (DomState.mk ["active"] [] [] false)).navMenu :=
  ⟨by decide,
   (toggle_preserves_marker_mismatch (DomState.mk ["active"] [] [] false) (by decide)).1 1⟩

/-- C10: with the hamburger present and the `.nav-menu` lookup null,
initialization completes and registers all listeners without
dereferencing the menu panel; the null-reference failure is deferred to
the first hamburger click, and that failing click has already toggled the
hamburger's `"active"` marker when it raises, so the state is not left
unchanged on the error. -/
theorem null_navMenu_deferred_failure (h : ClassList) (links : List ClassList) :
    initScript (Doc.mk (some h) none links)
      = Except.ok (Listener.toggle :: links.map (fun _ => Listener.link))
  ∧ (hamburgerClickRun h none).2 = some JsError.nullDereference
  ∧ (hamburgerClickRun h none).1.2 = none
  ∧ hasClass "active" (hamburgerClickRun h none).1.1 = !(hasClass "active" h)
  ∧ (hamburgerClickRun h none).1.1 ≠ h := by
  refine ⟨rfl, rfl, rfl, hasClass_toggleClass "active" h, ?_⟩
  intro heq
  have hflip : hasClass "active" (hamburgerClickRun h none).1.1
      = !(hasClass "active" h) := hasClass_toggleClass "active" h
  rw [heq] at hflip
  exact (Bool.eq_not_self (hasClass "active" h)).mp hflip

end Script
